import Mathlib

/-!
Shallow embedding of `src/mcp-confluence-datacenter.py`, the Confluence
Data Center MCP server.  Network exchanges are modelled by environment
records: each HTTP call the Python code awaits is represented by an
`Except PyExc _` value supplied by the environment (`.error e` means the
awaited call raised the exception `e`; `.ok _` means a response object came
back, carrying its status code and the fields the code reads from the
parsed JSON body).  Every tool function is a total Lean function from its
input and environment to a structured result mirroring the dictionary the
Python code serialises with `json.dumps`; totality models the outer
`try/except` blocks that stop any exception from escaping the tools.
-/

namespace ConfluenceMCP

/-- Exceptions the Python code can observe around an HTTP call: a transport
timeout, an `httpx.HTTPStatusError` produced by `raise_for_status`, a
`ValueError` (missing configuration), or any other exception (carrying the
exception type name and its `str`). -/
inductive PyExc where
  | timeout
  | statusError (status : Nat) (text : String)
  | valueError (msg : String)
  | other (name msg : String)
deriving DecidableEq

/-- Representative rendering of Python `str(e)` for an exception; the exact
text depends on the exception object and no claim depends on it. -/
def pyStr : PyExc → String
  | .timeout => "timeout"
  | .statusError status _ => "HTTP status error " ++ toString status
  | .valueError m => m
  | .other _ m => m

/-- An HTTP response as far as the code reads it raw: status code and body
text (`response.status_code`, `response.text`). -/
structure HttpResponse where
  status : Nat
  text : String
deriving DecidableEq

/-- Success statuses: `httpx.Response.raise_for_status` raises
`HTTPStatusError` exactly when the status is not 2xx. -/
def is2xx (status : Nat) : Bool := 200 ≤ status && status < 300

/-- Boolean prefix test on character lists. -/
def isPrefixB : List Char → List Char → Bool
  | [], _ => true
  | _ :: _, [] => false
  | a :: as, b :: bs => a == b && isPrefixB as bs

/-- Boolean substring test on character lists: Python's `needle in hay`. -/
def containsSubB (needle : List Char) : List Char → Bool
  | [] => isPrefixB needle []
  | l@(_ :: rest) => isPrefixB needle l || containsSubB needle rest

/-- Python's `needle in hay` on strings (case-sensitive substring test). -/
def strContainsSub (hay needle : String) : Bool :=
  containsSubB needle.data hay.data

/-- Python's `str.lower()`, modelled per character (ASCII-faithful). -/
def pyLower (s : String) : String := String.mk (s.data.map Char.toLower)

/-- Translation of `_handle_api_error` (lines 63-82): format an exception as
a user-facing error message. -/
def handle_api_error : PyExc → String
  | .statusError status text =>
    if status = 400 then "Error: Bad request - " ++ text
    else if status = 401 then
      "Error: Authentication failed. Check your API token and email."
    else if status = 403 then
      "Error: Permission denied. You don't have access to perform this operation."
    else if status = 404 then
      "Error: Resource not found. Check the space key or page ID."
    else if status = 429 then
      "Error: Rate limit exceeded. Please wait before making more requests."
    else
      "Error: API request failed with status " ++ toString status ++ ": " ++ text
  | .timeout => "Error: Request timed out. Please try again."
  | .valueError m => "Error: " ++ m
  | .other n m => "Error: Unexpected error occurred: " ++ n ++ " - " ++ m

/-- Message of the `ValueError` raised by `get_http_client` when the base
URL or API token is absent (lines 46-50). -/
def missingEnvMsg : String :=
  "Missing required environment variables: CONFLUENCE_URL, CONFLUENCE_API_TOKEN"

def bothPageMsg : String :=
  "Cannot specify both page_id and page_title. Please use only one."

def neitherPageMsg : String := "Must specify either page_id or page_title."

def spaceKeyRequiredMsg : String := "space_key is required when using page_title"

def pageNotFoundMsg (title space_key : String) : String :=
  "Page with title '" ++ title ++ "' not found in space '" ++ space_key ++ "'"

def userNotFoundMsg (identifier : String) : String :=
  "User '" ++ identifier ++ "' not found"

def groupNotFoundMsg (group_name : String) : String :=
  "Group '" ++ group_name ++ "' not found"

def noPrincipalsMsg : String := "At least one user or group must be specified"

/-- Outcome of the `GET /rest/api/content?spaceKey&title&type=page&limit=1`
call inside `_find_page_by_title`: status code and the `id` fields of the
parsed `results` array.  A `.error` on the `Except` covers a raised
transport exception and a `.json()` parse failure alike (both are swallowed
by the same `except`). -/
structure ContentSearchOutcome where
  status : Nat
  resultIds : List String
deriving DecidableEq

/-- Translation of `_find_page_by_title` (lines 346-374): first result's id
on a 2xx response, `None` on empty results, any exception (transport or the
`HTTPStatusError` from `raise_for_status`) swallowed to `None`. -/
def find_page_by_title : Except PyExc ContentSearchOutcome → Option String
  | .error _ => none
  | .ok r => if is2xx r.status then r.resultIds.head? else none

/-- Translation of `_find_group_by_name` (lines 377-394): the group name is
used directly as the id, with no existence check. -/
def find_group_by_name (group_name : String) : Option String := some group_name

/-- Outcome of `GET /rest/api/user?username=...`: status code and the
`accountId` field of the parsed body (absent key gives `none`). -/
structure UserByNameOutcome where
  status : Nat
  accountId : Option String
deriving DecidableEq

/-- Outcome of `GET /rest/api/search/user?query=...`: status code and the
`accountId` fields of the parsed `results` array. -/
structure UserSearchOutcome where
  status : Nat
  resultAccountIds : List (Option String)
deriving DecidableEq

/-- Environment for one `_find_user_by_identifier` call: the outcomes of
its two sequential lookups. -/
structure UserLookupBackend where
  byUsername : Except PyExc UserByNameOutcome
  search : Except PyExc UserSearchOutcome

/-- Translation of `_find_user_by_identifier` (lines 397-430): an exact
username lookup first (a 200 returns its `accountId` field directly, even
when absent), then a fuzzy search taking the first result; any exception is
swallowed to `None`. -/
def find_user_by_identifier (b : UserLookupBackend) : Option String :=
  match b.byUsername with
  | .error _ => none
  | .ok r1 =>
    if r1.status = 200 then r1.accountId
    else
      match b.search with
      | .error _ => none
      | .ok r2 =>
        if r2.status = 200 then
          match r2.resultAccountIds with
          | [] => none
          | first :: _ => first
        else none

/-- Outcome of `GET /rest/api/content/{id}` used for the reverse title
lookup: status code and the `title` field of the parsed body. -/
structure PageContentOutcome where
  status : Nat
  title : Option String
deriving DecidableEq

/-- Reverse title lookup used when only a page id is supplied (lines
623-630 and 917-924): `page_data.get("title", "")` on a 2xx response, and
the empty string when the request or `raise_for_status` raises. -/
def fetch_page_title : Except PyExc PageContentOutcome → String
  | .error _ => ""
  | .ok r => if is2xx r.status then r.title.getD "" else ""

/-- Shared page-reference resolution block of `add_restrictions` (lines
605-630), `remove_restrictions` (lines 899-924) and `get_child_pages`:
either resolve a (space key, title) pair through `_find_page_by_title`, or
take the given page id and fetch its title.  The `.error` carries the full
user-facing message of the early `return`. -/
def resolvePageRef (pageLookup : Except PyExc ContentSearchOutcome)
    (contentGet : Except PyExc PageContentOutcome)
    (page_id page_title space_key : Option String) :
    Except String (String × String) :=
  match page_title with
  | some t =>
    match space_key with
    | none => .error spaceKeyRequiredMsg
    | some sk =>
      match find_page_by_title pageLookup with
      | some pid => .ok (pid, t)
      | none => .error (pageNotFoundMsg t sk)
  | none =>
    match page_id with
    | some pid => .ok (pid, fetch_page_title contentGet)
    | none => .error neitherPageMsg

/-- Restriction operation enum (`OperationType`, lines 91-94). -/
inductive OperationType where
  | read
  | update
deriving DecidableEq

/-- The `.value` attribute of the Python enum member. -/
def OperationType.value : OperationType → String
  | .read => "read"
  | .update => "update"

/-- Input model `AddRestrictionInput` (lines 143-197).  `none` models a
field left at its `None` default; pydantic's `min_length=1` makes present
strings non-empty, so presence models Python truthiness. -/
structure AddRestrictionInput where
  page_id : Option String
  page_title : Option String
  space_key : Option String
  operation : OperationType
  user_account_ids : Option (List String)
  user_identifiers : Option (List String)
  group_ids : Option (List String)
  group_names : Option (List String)
deriving DecidableEq

/-- Environment of one `add_restrictions` call: configuration presence and
the outcome of each network exchange the call can perform. -/
structure AddEnv where
  hasConfig : Bool
  pageLookup : Except PyExc ContentSearchOutcome
  contentGet : Except PyExc PageContentOutcome
  userLookup : String → UserLookupBackend
  permPost : Except PyExc HttpResponse

/-- Translation of the user-merging loop (lines 632-645): start from the
direct account-id list and append each resolved identifier; the first
identifier whose resolution yields a falsy value (`None` or the empty
string, `if account_id:`) aborts the whole operation (the `.error` carries
that identifier). -/
def resolveUsers (lookup : String → Option String) :
    List String → List String → Except String (List String)
  | acc, [] => .ok acc
  | acc, identifier :: rest =>
    match lookup identifier with
    | some account_id =>
      if account_id = "" then .error identifier
      else resolveUsers lookup (acc ++ [account_id]) rest
    | none => .error identifier

/-- Translation of the group-merging loop (lines 647-660): start from the
direct group-id list and append each name resolved by
`_find_group_by_name` (which echoes the name, so only an empty name is
falsy and rejected by `if group_id:`). -/
def resolveGroups : List String → List String → Except String (List String)
  | acc, [] => .ok acc
  | acc, group_name :: rest =>
    match find_group_by_name group_name with
    | some group_id =>
      if group_id = "" then .error group_name
      else resolveGroups (acc ++ [group_id]) rest
    | none => .error group_name

/-- Page classification (line 672): a page is sensitive when its title
contains the substring "Private" or "Shared" (case-sensitive). -/
def is_private_or_shared (page_title : String) : Bool :=
  strContainsSub page_title "Private" || strContainsSub page_title "Shared"

/-- The legacy form field a grant is appended under (lines 682-706). -/
inductive PermKey where
  | viewUser
  | editUser
  | viewGroup
  | editGroup
deriving DecidableEq

def PermKey.fieldName : PermKey → String
  | .viewUser => "viewPermissionsUserList"
  | .editUser => "editPermissionsUserList"
  | .viewGroup => "viewPermissionsGroupList"
  | .editGroup => "editPermissionsGroupList"

/-- Rendering of one grant as the f-string the code appends, e.g.
`viewPermissionsUserList={account_id}`. -/
def renderGrant : PermKey × String → String
  | (k, v) => k.fieldName ++ "=" ++ v

/-- Grants appended for one user account id (lines 679-691): read gives a
view grant; update gives view and edit on a sensitive page, else edit only. -/
def userGrantEntries (opv : String) (sens : Bool) (account_id : String) :
    List (PermKey × String) :=
  if opv = "read" then [(.viewUser, account_id)]
  else if opv = "update" then
    if sens then [(.viewUser, account_id), (.editUser, account_id)]
    else [(.editUser, account_id)]
  else []

/-- Grants appended for one group id (lines 693-706), same shape as for
users. -/
def groupGrantEntries (opv : String) (sens : Bool) (group_id : String) :
    List (PermKey × String) :=
  if opv = "read" then [(.viewGroup, group_id)]
  else if opv = "update" then
    if sens then [(.viewGroup, group_id), (.editGroup, group_id)]
    else [(.editGroup, group_id)]
  else []

/-- All grant entries of one submission: the per-user loop then the
per-group loop, in input order. -/
def grantEntries (opv : String) (sens : Bool) (users groups : List String) :
    List (PermKey × String) :=
  users.flatMap (userGrantEntries opv sens) ++ groups.flatMap (groupGrantEntries opv sens)

/-- The trailing `contentId={page_id}` field (line 709). -/
def contentIdField (page_id : String) : String := "contentId=" ++ page_id

/-- The `form_data` list built by lines 676-709: the rendered grants plus
the page-id field. -/
def form_data (opv : String) (sens : Bool) (users groups : List String)
    (page_id : String) : List String :=
  (grantEntries opv sens users groups).map renderGrant ++ [contentIdField page_id]

/-- Line 712: `form_body = "&".join(form_data)`. -/
def form_body (opv : String) (sens : Bool) (users groups : List String)
    (page_id : String) : String :=
  String.intercalate "&" (form_data opv sens users groups page_id)

/-- Translation of the submission block (lines 714-738): on a 2xx response
whose lowercased body contains "true" the submitted counts are reported;
otherwise counts drop to zero and a warning is recorded (truncated snippet
for an unexpected body, `_handle_api_error` text for an exception). -/
def submitPermissions (post : Except PyExc HttpResponse)
    (userCount groupCount : Nat) : Nat × Nat × List String :=
  match post with
  | .error e => (0, 0, [handle_api_error e])
  | .ok r =>
    if is2xx r.status then
      if strContainsSub (pyLower r.text) "true" then (userCount, groupCount, [])
      else (0, 0, ["API returned unexpected response: " ++ r.text.take 200])
    else (0, 0, [handle_api_error (.statusError r.status r.text)])

/-- The `message` field of the `add_restrictions` result (lines 751-754). -/
def addMessage (opv : String) (users_added groups_added : Nat) : String :=
  if 0 < users_added ∨ 0 < groups_added then
    "Added " ++ opv ++ " restrictions: " ++ toString users_added ++ " users, "
      ++ toString groups_added ++ " groups"
  else "No restrictions were added"

/-- Result of `add_restrictions`: one constructor per shape of the returned
JSON object — an early `{"success": false, "error": ...}` return, or the
final result dictionary of lines 740-754. -/
inductive AddResult where
  | err (error : String)
  | done (page_id : String) (operation : String) (users_added groups_added : Nat)
      (warnings : List String) (message : String)
deriving DecidableEq

/-- The `success` value of the returned JSON (`False` at every error
return; `users_added > 0 or groups_added > 0` at line 741). -/
def AddResult.success : AddResult → Bool
  | .err _ => false
  | .done _ _ u g _ _ => decide (0 < u) || decide (0 < g)

/-- The keys of the returned JSON object, in insertion order (`warnings`
only when non-empty, line 748). -/
def AddResult.jsonKeys : AddResult → List String
  | .err _ => ["success", "error"]
  | .done _ _ _ _ warnings _ =>
    ["success", "page_id", "operation", "users_added", "groups_added"]
      ++ (if warnings.isEmpty then [] else ["warnings"]) ++ ["message"]

/-- Translation of the tool `add_restrictions` (lines 565-763).  The second
component is the body of the POST to the legacy permissions endpoint when
one was issued, and `none` when the call returned before any write. -/
def add_restrictions (env : AddEnv) (p : AddRestrictionInput) :
    AddResult × Option String :=
  if env.hasConfig = false then
    (.err (handle_api_error (.valueError missingEnvMsg)), none)
  else if p.page_id.isSome && p.page_title.isSome then (.err bothPageMsg, none)
  else if p.page_id.isNone && p.page_title.isNone then (.err neitherPageMsg, none)
  else
    match resolvePageRef env.pageLookup env.contentGet p.page_id p.page_title p.space_key with
    | .error m => (.err m, none)
    | .ok (page_id, page_title) =>
      match resolveUsers (fun idf => find_user_by_identifier (env.userLookup idf))
          (p.user_account_ids.getD []) (p.user_identifiers.getD []) with
      | .error idf => (.err (userNotFoundMsg idf), none)
      | .ok user_account_ids =>
        match resolveGroups (p.group_ids.getD []) (p.group_names.getD []) with
        | .error g => (.err (groupNotFoundMsg g), none)
        | .ok group_ids =>
          if user_account_ids.isEmpty && group_ids.isEmpty then
            (.err noPrincipalsMsg, none)
          else
            let sens := is_private_or_shared page_title
            let body := form_body p.operation.value sens user_account_ids group_ids page_id
            let sub := submitPermissions env.permPost user_account_ids.length group_ids.length
            (.done page_id p.operation.value sub.1 sub.2.1 sub.2.2
              (addMessage p.operation.value sub.1 sub.2.1), some body)

/-- Input model `RemoveRestrictionInput` (lines 215-245). -/
structure RemoveRestrictionInput where
  page_id : Option String
  page_title : Option String
  space_key : Option String
  operation : Option OperationType
  remove_all : Bool
deriving DecidableEq

/-- Environment of one `remove_restrictions` call; `deleteResp op` is the
outcome of `DELETE /rest/api/content/{id}/restriction/byOperation/{op}`. -/
structure RemoveEnv where
  hasConfig : Bool
  pageLookup : Except PyExc ContentSearchOutcome
  contentGet : Except PyExc PageContentOutcome
  deleteResp : String → Except PyExc HttpResponse

/-- Target operation set (lines 926-931): both operations when
`remove_all` is set or no operation is given, else the single named one. -/
def operations_to_remove (p : RemoveRestrictionInput) : List String :=
  if p.remove_all || p.operation.isNone then ["read", "update"]
  else
    match p.operation with
    | some op => [op.value]
    | none => []

def removeFailMsg (op detail : String) : String :=
  "Failed to remove " ++ op ++ " restrictions: " ++ detail

/-- One iteration of the removal loop (lines 937-958): 204 and 404 count as
removed; any other 2xx passes `raise_for_status` and also counts; any other
status raises `HTTPStatusError`, caught into a warning (the code's inner
404 re-check inside that handler is unreachable because 404 was already
accepted); a raised transport exception becomes the same style of warning. -/
def removeOneOp (op : String) (resp : Except PyExc HttpResponse) :
    Bool × List String :=
  match resp with
  | .error e => (false, [removeFailMsg op (handle_api_error e)])
  | .ok r =>
    if r.status = 204 || r.status = 404 then (true, [])
    else if is2xx r.status then (true, [])
    else (false, [removeFailMsg op (handle_api_error (.statusError r.status r.text))])

/-- The full removal loop (lines 934-958): every targeted operation is
attempted in order regardless of earlier failures; the first component
collects the removed operations, the second the warnings. -/
def removeLoop (delete : String → Except PyExc HttpResponse) :
    List String → List String × List String
  | [] => ([], [])
  | op :: rest =>
    let step := removeOneOp op (delete op)
    let tail := removeLoop delete rest
    ((if step.1 then [op] else []) ++ tail.1, step.2 ++ tail.2)

/-- Result of `remove_restrictions`: an early error return, or the result
dictionary of lines 960-973. -/
inductive RemoveResult where
  | err (error : String)
  | done (page_id page_title : String) (removed_operations warnings : List String)
deriving DecidableEq

/-- The `success` value: `len(removed_operations) > 0` at line 961. -/
def RemoveResult.success : RemoveResult → Bool
  | .err _ => false
  | .done _ _ removed _ => !removed.isEmpty

def RemoveResult.removedOps : RemoveResult → List String
  | .err _ => []
  | .done _ _ removed _ => removed

def RemoveResult.warningsList : RemoveResult → List String
  | .err _ => []
  | .done _ _ _ warnings => warnings

/-- The `message` value of the result dictionary (lines 970-973). -/
def RemoveResult.message : RemoveResult → Option String
  | .err _ => none
  | .done _ _ removed _ =>
    if removed.isEmpty then some "No restrictions were removed"
    else some ("Removed restrictions for: " ++ String.intercalate ", " removed)

/-- The keys of the returned JSON object, in insertion order. -/
def RemoveResult.jsonKeys : RemoveResult → List String
  | .err _ => ["success", "error"]
  | .done _ _ _ warnings =>
    ["success", "page_id", "page_title", "removed_operations"]
      ++ (if warnings.isEmpty then [] else ["warnings"]) ++ ["message"]

/-- Translation of the tool `remove_restrictions` (lines 862-982).  The
second component lists the operations for which a DELETE request was
issued (empty when the call returned before the loop). -/
def remove_restrictions (env : RemoveEnv) (p : RemoveRestrictionInput) :
    RemoveResult × List String :=
  if env.hasConfig = false then
    (.err (handle_api_error (.valueError missingEnvMsg)), [])
  else if p.page_id.isSome && p.page_title.isSome then (.err bothPageMsg, [])
  else if p.page_id.isNone && p.page_title.isNone then (.err neitherPageMsg, [])
  else
    match resolvePageRef env.pageLookup env.contentGet p.page_id p.page_title p.space_key with
    | .error m => (.err m, [])
    | .ok (page_id, page_title) =>
      let ops := operations_to_remove p
      let lp := removeLoop env.deleteResp ops
      (.done page_id page_title lp.1 lp.2, ops)

/-- Python whitespace class `\s` (ASCII range) used by the token regexes. -/
def isPyWs (c : Char) : Bool :=
  c = ' ' || c = '\t' || c = '\n' || c = '\r' || c = '\x0b' || c = '\x0c'

/-- Drop a literal character-list prefix, or fail. -/
def dropLitPrefix : List Char → List Char → Option (List Char)
  | [], rest => some rest
  | _ :: _, [] => none
  | p :: ps, c :: cs => if p = c then dropLitPrefix ps cs else none

/-- Match of the first token pattern at one position (line 1394):
`name="atl_token"\s+value="([^"]+)"` — the literal attribute name, one or
more whitespace characters, `value="`, then the captured non-empty run of
non-quote characters closed by a quote. -/
def matchAttrTokenAt (cs : List Char) : Option String :=
  match dropLitPrefix "name=\"atl_token\"".data cs with
  | none => none
  | some rest =>
    if (rest.takeWhile isPyWs).isEmpty then none
    else
      match dropLitPrefix "value=\"".data (rest.dropWhile isPyWs) with
      | none => none
      | some rest2 =>
        let tok := rest2.takeWhile (fun c => c != '"')
        if tok.isEmpty then none
        else
          match rest2.dropWhile (fun c => c != '"') with
          | '"' :: _ => some (String.mk tok)
          | _ => none

/-- Match of the second token pattern at one position (line 1399):
`atl_token=([^&"\s]+)` — the literal key and a captured non-empty run of
characters that are not `&`, `"` or whitespace. -/
def matchQueryTokenAt (cs : List Char) : Option String :=
  match dropLitPrefix "atl_token=".data cs with
  | none => none
  | some rest =>
    let tok := rest.takeWhile (fun c => !(c = '&' || c = '"' || isPyWs c))
    if tok.isEmpty then none else some (String.mk tok)

/-- `re.search`: the match at the leftmost position where one exists. -/
def searchFirst (m : List Char → Option String) : List Char → Option String
  | [] => m []
  | l@(_ :: rest) =>
    match m l with
    | some t => some t
    | none => searchFirst m rest

/-- Token extraction of step 3 (lines 1389-1406): the attribute pattern is
tried over the whole body first, then the query-string pattern. -/
def extract_atl_token (text : String) : Option String :=
  match searchFirst matchAttrTokenAt text.data with
  | some t => some t
  | none => searchFirst matchQueryTokenAt text.data

def missingCredsMsg : String :=
  "Missing credentials. Set CONFLUENCE_LOGIN and CONFLUENCE_LOGIN_PASSWORD environment variables or provide them as parameters."

def missingDirMsg : String :=
  "Missing directory_id. Set CONFLUENCE_DIRECTORY_ID environment variable or provide it as parameter."

def tokenNotFoundMsg : String :=
  "ATL_TOKEN not found in response. Authentication may have failed or user lacks admin permissions."

def syncOkMsg (directory_id : String) : String :=
  "User directory sync triggered successfully for directory ID: " ++ directory_id

def syncFailStatusMsg (status : Nat) (text : String) : String :=
  "Sync request returned status " ++ toString status ++ ": " ++ text.take 200

/-- Input model `SyncUserDirectoryInput` (lines 324-343). -/
structure SyncInput where
  directory_id : Option String
  login : Option String
  password : Option String
deriving DecidableEq

/-- The environment-variable configuration read by the sync tool. -/
structure SyncConfig where
  confluenceLogin : String
  confluencePassword : String
  confluenceDirectoryId : String
deriving DecidableEq

/-- Environment of one `sync_user_directory` call: the outcome of each of
the three POST exchanges of the session protocol. -/
structure SyncEnv where
  loginResp : Except PyExc HttpResponse
  authResp : Except PyExc HttpResponse
  syncResp : Except PyExc HttpResponse

/-- Result of `sync_user_directory`: an error return or the success
dictionary of lines 1425-1429. -/
inductive SyncResult where
  | err (error : String)
  | ok (message : String) (directory_id : String)
deriving DecidableEq

def SyncResult.success : SyncResult → Bool
  | .err _ => false
  | .ok _ _ => true

def SyncResult.jsonKeys : SyncResult → List String
  | .err _ => ["success", "error"]
  | .ok _ _ => ["success", "message", "directory_id"]

/-- Python's `a or b` fallback on an optional string: an absent or empty
parameter falls back to the environment value (lines 1320-1322). -/
def pyOrD (a : Option String) (b : String) : String :=
  match a with
  | some s => if s = "" then b else s
  | none => b

/-- Steps 3 and 4 of the sync protocol (lines 1389-1440), given the HTML
body of the step-2 response: extract the token, then trigger the sync.
The second component records whether the step-4 sync request was issued. -/
def afterAuth (directory_id : String) (syncResp : Except PyExc HttpResponse)
    (authText : String) : SyncResult × Bool :=
  match extract_atl_token authText with
  | none => (.err tokenNotFoundMsg, false)
  | some _ =>
    match syncResp with
    | .error e => (.err ("Failed to trigger sync: " ++ pyStr e), true)
    | .ok r =>
      if r.status = 200 || r.status = 302 then
        (.ok (syncOkMsg directory_id) directory_id, true)
      else (.err (syncFailStatusMsg r.status r.text), true)

/-- Translation of the tool `sync_user_directory` (lines 1294-1446).  Steps
1 and 2 return early only when the awaited POST itself raises; neither
inspects the response's status code.  The second component records whether
the step-4 sync request was issued. -/
def sync_user_directory (cfg : SyncConfig) (env : SyncEnv) (p : SyncInput) :
    SyncResult × Bool :=
  let login := pyOrD p.login cfg.confluenceLogin
  let password := pyOrD p.password cfg.confluencePassword
  let directory_id := pyOrD p.directory_id cfg.confluenceDirectoryId
  if login = "" ∨ password = "" then (.err missingCredsMsg, false)
  else if directory_id = "" then (.err missingDirMsg, false)
  else
    match env.loginResp with
    | .error e => (.err ("Login failed: " ++ pyStr e), false)
    | .ok _ =>
      match env.authResp with
      | .error e => (.err ("Authentication to user directories failed: " ++ pyStr e), false)
      | .ok authR => afterAuth directory_id env.syncResp authR.text

def bothParentMsg : String :=
  "Cannot specify both parent_id and parent_title. Please use only one."

def parentNotFoundMsg (title space_key : String) : String :=
  "Parent page with title '" ++ title ++ "' not found in space '" ++ space_key ++ "'"

def createOkMsg (title : String) : String :=
  "Page '" ++ title ++ "' created successfully"

/-- Input model `CreatePageInput` (lines 97-140); the editor version does
not influence any modelled behaviour beyond the request payload. -/
structure CreatePageInput where
  space_key : String
  title : String
  content : String
  parent_id : Option String
  parent_title : Option String
deriving DecidableEq

/-- Translation of `_prepare_content_html` (lines 433-439). -/
def prepare_content_html (content : String) : String :=
  if ["<p>", "<h1>", "<h2>", "<h3>", "<div>", "<table>"].any
      (fun tag => strContainsSub (pyLower content) tag) then content
  else "<p>" ++ content ++ "</p>"

/-- Outcome of `POST /rest/api/content`: status, raw text, and the `id`
field of the parsed body (its absence makes `data["id"]` raise `KeyError`). -/
structure CreatePostOutcome where
  status : Nat
  text : String
  id : Option String
deriving DecidableEq

/-- Environment of one `create_page` call. -/
structure CreateEnv where
  hasConfig : Bool
  parentLookup : Except PyExc ContentSearchOutcome
  postCreate : Except PyExc CreatePostOutcome

/-- Result of `create_page`: an error return, or the success dictionary of
lines 536-543 (the page URL is derived from the page id and not modelled
separately). -/
inductive CreateResult where
  | err (error : String)
  | ok (page_id title space_key message : String)
deriving DecidableEq

def CreateResult.success : CreateResult → Bool
  | .err _ => false
  | .ok _ _ _ _ => true

def CreateResult.jsonKeys : CreateResult → List String
  | .err _ => ["success", "error"]
  | .ok _ _ _ _ => ["success", "page_id", "page_url", "title", "space_key", "message"]

/-- Parent resolution block of `create_page` (lines 478-493). -/
def resolveParent (parentLookup : Except PyExc ContentSearchOutcome)
    (space_key : String) (parent_id parent_title : Option String) :
    Except String (Option String) :=
  match parent_title with
  | some t =>
    match find_page_by_title parentLookup with
    | some pid => .ok (some pid)
    | none => .error (parentNotFoundMsg t space_key)
  | none => .ok parent_id

/-- Translation of the tool `create_page` (lines 452-552). -/
def create_page (env : CreateEnv) (p : CreatePageInput) : CreateResult :=
  if env.hasConfig = false then .err (handle_api_error (.valueError missingEnvMsg))
  else if p.parent_id.isSome && p.parent_title.isSome then .err bothParentMsg
  else
    match resolveParent env.parentLookup p.space_key p.parent_id p.parent_title with
    | .error m => .err m
    | .ok _parent =>
      match env.postCreate with
      | .error e => .err (handle_api_error e)
      | .ok r =>
        if is2xx r.status then
          match r.id with
          | some page_id => .ok page_id p.title p.space_key (createOkMsg p.title)
          | none => .err (handle_api_error (.other "KeyError" "'id'"))
        else .err (handle_api_error (.statusError r.status r.text))

/-- One user entry of the restriction snapshot as the backend returns it. -/
structure UserRec where
  accountId : Option String
  displayName : Option String
  publicName : Option String
  email : Option String
deriving DecidableEq

/-- One group entry of the restriction snapshot as the backend returns it. -/
structure GroupRec where
  id : Option String
  name : Option String
deriving DecidableEq

/-- The `read` or `update` object of the restriction response; `none` on a
results list models an absent `restrictions.user` / `restrictions.group`
key (lines 818, 828). -/
structure RestrOpOutcome where
  users : Option (List UserRec)
  groups : Option (List GroupRec)
deriving DecidableEq

/-- Outcome of `GET /rest/api/content/{id}/restriction/byOperation`; a
`none` operation models the key absent from the response (line 810). -/
structure RestrGetOutcome where
  status : Nat
  text : String
  read : Option RestrOpOutcome
  update : Option RestrOpOutcome
deriving DecidableEq

/-- Environment of one `get_restrictions` call. -/
structure GetRestrEnv where
  hasConfig : Bool
  getResp : Except PyExc RestrGetOutcome

/-- A parsed user entry (lines 821-825): display name falls back to the
public name and then to "Unknown"; email defaults to "N/A". -/
structure ParsedUser where
  accountId : Option String
  displayName : String
  email : String
deriving DecidableEq

/-- A parsed group entry (lines 831-834): name defaults to "Unknown". -/
structure ParsedGroup where
  id : Option String
  name : String
deriving DecidableEq

structure ParsedOp where
  users : List ParsedUser
  groups : List ParsedGroup
deriving DecidableEq

def parseUserRec (u : UserRec) : ParsedUser :=
  { accountId := u.accountId
    displayName := u.displayName.getD (u.publicName.getD "Unknown")
    email := u.email.getD "N/A" }

def parseGroupRec (g : GroupRec) : ParsedGroup :=
  { id := g.id, name := g.name.getD "Unknown" }

def parseRestrOp (o : RestrOpOutcome) : ParsedOp :=
  { users := (o.users.getD []).map parseUserRec
    groups := (o.groups.getD []).map parseGroupRec }

/-- Result of `get_restrictions`: an error return or the dictionary of
lines 836-840, with an operation omitted when absent upstream. -/
inductive GetRestrictionsResult where
  | err (error : String)
  | ok (page_id : String) (read : Option ParsedOp) (update : Option ParsedOp)
deriving DecidableEq

def GetRestrictionsResult.success : GetRestrictionsResult → Bool
  | .err _ => false
  | .ok _ _ _ => true

def GetRestrictionsResult.jsonKeys : GetRestrictionsResult → List String
  | .err _ => ["success", "error"]
  | .ok _ _ _ => ["success", "page_id", "restrictions"]

/-- Translation of the tool `get_restrictions` (lines 776-849). -/
def get_restrictions (env : GetRestrEnv) (page_id : String) :
    GetRestrictionsResult :=
  if env.hasConfig = false then .err (handle_api_error (.valueError missingEnvMsg))
  else
    match env.getResp with
    | .error e => .err (handle_api_error e)
    | .ok r =>
      if is2xx r.status then
        .ok page_id (r.read.map parseRestrOp) (r.update.map parseRestrOp)
      else .err (handle_api_error (.statusError r.status r.text))

/-- One raw page record of a listing response; the per-page projection into
`page_info` (url, version, space, history, body preview) carries no logic a
claim depends on, so records are passed through. -/
structure PageRec where
  id : Option String
  title : Option String
deriving DecidableEq

/-- Outcome of a page-listing GET: status, text, parsed `results`, `size`,
and whether `_links` contains `next`. -/
structure ListingOutcome where
  status : Nat
  text : String
  results : List PageRec
  size : Nat
  hasNext : Bool
deriving DecidableEq

/-- Environment of one `get_space_pages` call. -/
structure SpacePagesEnv where
  hasConfig : Bool
  getResp : Except PyExc ListingOutcome

/-- Input model `GetSpacePagesInput` (lines 248-281). -/
structure GetSpacePagesInput where
  space_key : String
  title : Option String
  limit : Nat
  start : Nat
deriving DecidableEq

/-- Result of `get_space_pages`: an error return or the dictionary of lines
1093-1108. -/
inductive SpacePagesResult where
  | err (error : String)
  | ok (space_key : String) (total_count returned_count start limit : Nat)
      (pages : List PageRec) (has_more : Bool)
deriving DecidableEq

def SpacePagesResult.success : SpacePagesResult → Bool
  | .err _ => false
  | .ok _ _ _ _ _ _ _ => true

def SpacePagesResult.jsonKeys : SpacePagesResult → List String
  | .err _ => ["success", "error"]
  | .ok _ _ _ _ _ _ has_more =>
    ["success", "space_key", "total_count", "returned_count", "start", "limit", "pages"]
      ++ (if has_more then ["has_more", "next_start"] else ["has_more"])

/-- Translation of the tool `get_space_pages` (lines 995-1117). -/
def get_space_pages (env : SpacePagesEnv) (p : GetSpacePagesInput) :
    SpacePagesResult :=
  if env.hasConfig = false then .err (handle_api_error (.valueError missingEnvMsg))
  else
    match env.getResp with
    | .error e => .err (handle_api_error e)
    | .ok r =>
      if is2xx r.status then
        .ok p.space_key r.size r.results.length p.start p.limit r.results r.hasNext
      else .err (handle_api_error (.statusError r.status r.text))

/-- Input model `GetChildPagesInput` (lines 284-321). -/
structure GetChildPagesInput where
  page_id : Option String
  page_title : Option String
  space_key : Option String
  limit : Nat
  start : Nat
deriving DecidableEq

/-- Environment of one `get_child_pages` call. -/
structure ChildPagesEnv where
  hasConfig : Bool
  pageLookup : Except PyExc ContentSearchOutcome
  contentGet : Except PyExc PageContentOutcome
  childResp : Except PyExc ListingOutcome

/-- Result of `get_child_pages`: an error return or the dictionary of lines
1256-1272. -/
inductive ChildPagesResult where
  | err (error : String)
  | ok (parent_page_id parent_page_title : String)
      (total_count returned_count start limit : Nat)
      (child_pages : List PageRec) (has_more : Bool)
deriving DecidableEq

def ChildPagesResult.success : ChildPagesResult → Bool
  | .err _ => false
  | .ok _ _ _ _ _ _ _ _ => true

def ChildPagesResult.jsonKeys : ChildPagesResult → List String
  | .err _ => ["success", "error"]
  | .ok _ _ _ _ _ _ _ has_more =>
    ["success", "parent_page_id", "parent_page_title", "total_count",
      "returned_count", "start", "limit", "child_pages"]
      ++ (if has_more then ["has_more", "next_start"] else ["has_more"])

/-- Translation of the tool `get_child_pages` (lines 1130-1281). -/
def get_child_pages (env : ChildPagesEnv) (p : GetChildPagesInput) :
    ChildPagesResult :=
  if env.hasConfig = false then .err (handle_api_error (.valueError missingEnvMsg))
  else if p.page_id.isSome && p.page_title.isSome then .err bothPageMsg
  else if p.page_id.isNone && p.page_title.isNone then .err neitherPageMsg
  else
    match resolvePageRef env.pageLookup env.contentGet p.page_id p.page_title p.space_key with
    | .error m => .err m
    | .ok (page_id, page_title) =>
      match env.childResp with
      | .error e => .err (handle_api_error e)
      | .ok r =>
        if is2xx r.status then
          .ok page_id page_title r.size r.results.length p.start p.limit r.results r.hasNext
        else .err (handle_api_error (.statusError r.status r.text))

/-- Structured-outcome well-formedness for one returned JSON object: the
key set contains `success`, and a failing outcome carries an `error` or a
`message` key. -/
def reportsFailureOk (success : Bool) (keys : List String) : Bool :=
  keys.contains "success" && (success || keys.contains "error" || keys.contains "message")

/-- Number of grants of kind `k` that `principal` receives in the grant
list one `add_restrictions` submission builds for resolved title `T`. -/
def grantCount (operation : OperationType) (T : String) (users groups : List String)
    (k : PermKey) (principal : String) : Nat :=
  (grantEntries operation.value (is_private_or_shared T) users groups).count (k, principal)

/-- Whether a submission grants view permission at all, by operation and
sensitivity. -/
def viewApplies (opv : String) (sens : Bool) : Bool :=
  opv = "read" || (opv = "update" && sens)

/-- Whether a submission grants edit permission at all. -/
def editApplies (opv : String) : Bool := opv = "update"

/-- Modelled from the spec's words (not from the code), for comparison with
`form_data`: the body lists "all user view grants, then user edit grants if
any, then group view grants, then group edit grants, then the page id
key". -/
def specOrderedFormData (opv : String) (sens : Bool) (users groups : List String)
    (page_id : String) : List String :=
  (if viewApplies opv sens then users.map (fun a => renderGrant (.viewUser, a)) else [])
    ++ (if editApplies opv then users.map (fun a => renderGrant (.editUser, a)) else [])
    ++ (if viewApplies opv sens then groups.map (fun g => renderGrant (.viewGroup, g)) else [])
    ++ (if editApplies opv then groups.map (fun g => renderGrant (.editGroup, g)) else [])
    ++ [contentIdField page_id]

/-- The spec-ordered body, joined like line 712 joins the actual one. -/
def specOrderedBody (opv : String) (sens : Bool) (users groups : List String)
    (page_id : String) : String :=
  String.intercalate "&" (specOrderedFormData opv sens users groups page_id)

/-- A user-lookup backend whose two requests both raise (never consulted in
the runs that use it). -/
def unusedUserLookup : UserLookupBackend :=
  { byUsername := .error .timeout, search := .error .timeout }

/-- Environment for the C2 counterexample run: the page id resolves to the
sensitive title "Private X" and the permission POST answers 200 "true". -/
def envC2 : AddEnv :=
  { hasConfig := true
    pageLookup := .ok { status := 200, resultIds := [] }
    contentGet := .ok { status := 200, title := some "Private X" }
    userLookup := fun _ => unusedUserLookup
    permPost := .ok { status := 200, text := "true" } }

/-- Input for the C2 counterexample run: an update restriction for two
users on page "p". -/
def inC2 : AddRestrictionInput :=
  { page_id := some "p", page_title := none, space_key := none
    operation := .update
    user_account_ids := some ["u1", "u2"], user_identifiers := none
    group_ids := none, group_names := none }

/-- Environment for the spec's end-to-end example: page 12345 has the
non-sensitive title "Architecture" and the permission POST succeeds. -/
def envEng : AddEnv :=
  { hasConfig := true
    pageLookup := .ok { status := 200, resultIds := [] }
    contentGet := .ok { status := 200, title := some "Architecture" }
    userLookup := fun _ => unusedUserLookup
    permPost := .ok { status := 200, text := "true" } }

/-- Input for the spec's end-to-end example: an update restriction for the
single group "engineering" on page 12345. -/
def inEng : AddRestrictionInput :=
  { page_id := some "12345", page_title := none, space_key := none
    operation := .update
    user_account_ids := none, user_identifiers := none
    group_ids := some ["engineering"], group_names := none }

/-- Environment for the C4 counterexample run: the title-resolution GET
raises a transport timeout. -/
def envC4 : AddEnv :=
  { hasConfig := true
    pageLookup := .error .timeout
    contentGet := .ok { status := 200, title := none }
    userLookup := fun _ => unusedUserLookup
    permPost := .error .timeout }

/-- Input for the C4 counterexample run: lookup of page "Doc" in space
"SP". -/
def inC4 : AddRestrictionInput :=
  { page_id := none, page_title := some "Doc", space_key := some "SP"
    operation := .read
    user_account_ids := some ["u1"], user_identifiers := none
    group_ids := none, group_names := none }

/-- Environment for the C4 no-match instance: the search returns 200 with
an empty results array. -/
def envC4b : AddEnv :=
  { hasConfig := true
    pageLookup := .ok { status := 200, resultIds := [] }
    contentGet := .ok { status := 200, title := none }
    userLookup := fun _ => unusedUserLookup
    permPost := .error .timeout }

/-- Environment for the C5 witness run: resolution succeeds, nothing else
is consulted. -/
def envW5 : AddEnv :=
  { hasConfig := true
    pageLookup := .ok { status := 200, resultIds := [] }
    contentGet := .ok { status := 200, title := some "T" }
    userLookup := fun _ => unusedUserLookup
    permPost := .error .timeout }

/-- Input for the C5 witness run: a page id and no principal input at all. -/
def inW5 : AddRestrictionInput :=
  { page_id := some "1", page_title := none, space_key := none
    operation := .read
    user_account_ids := none, user_identifiers := none
    group_ids := none, group_names := none }

/-- Environment for the C9 counterexample run: identifier "alice" resolves
to account id "u1", which is also given directly. -/
def envC9 : AddEnv :=
  { hasConfig := true
    pageLookup := .ok { status := 200, resultIds := [] }
    contentGet := .ok { status := 200, title := some "Doc" }
    userLookup := fun idf =>
      if idf = "alice" then
        { byUsername := .ok { status := 200, accountId := some "u1" }
          search := .ok { status := 200, resultAccountIds := [] } }
      else unusedUserLookup
    permPost := .ok { status := 200, text := "true" } }

/-- Input for the C9 counterexample run: the same principal in both input
forms. -/
def inC9 : AddRestrictionInput :=
  { page_id := some "p", page_title := none, space_key := none
    operation := .read
    user_account_ids := some ["u1"], user_identifiers := some ["alice"]
    group_ids := none, group_names := none }

/-- Environment for the C6 witness run: the DELETE answers 404. -/
def envW6 : RemoveEnv :=
  { hasConfig := true
    pageLookup := .ok { status := 200, resultIds := [] }
    contentGet := .ok { status := 200, title := some "T" }
    deleteResp := fun _ => .ok { status := 404, text := "" } }

/-- Input for the C6 witness run: remove the read restriction of page
"p1". -/
def inW6 : RemoveRestrictionInput :=
  { page_id := some "p1", page_title := none, space_key := none
    operation := some .read, remove_all := false }

/-- Environment for the C7 witness run: deleting the read restriction
fails with a 500, deleting the update restriction answers 204. -/
def envW7 : RemoveEnv :=
  { hasConfig := true
    pageLookup := .ok { status := 200, resultIds := [] }
    contentGet := .ok { status := 200, title := some "T" }
    deleteResp := fun op =>
      if op = "read" then .ok { status := 500, text := "boom" }
      else .ok { status := 204, text := "" } }

/-- Input for the C7 witness run: remove all restrictions of page "p1". -/
def inW7 : RemoveRestrictionInput :=
  { page_id := some "p1", page_title := none, space_key := none
    operation := none, remove_all := true }

/-- Configuration for the sync witnesses. -/
def cfgW : SyncConfig :=
  { confluenceLogin := "admin", confluencePassword := "pw", confluenceDirectoryId := "1" }

/-- Input for the sync witnesses: everything from the environment. -/
def pW : SyncInput := { directory_id := none, login := none, password := none }

/-- Environment for the C3 witness run: both authentication steps answer,
but the step-2 body "hello" holds no token pattern. -/
def envW3 : SyncEnv :=
  { loginResp := .ok { status := 200, text := "" }
    authResp := .ok { status := 200, text := "hello" }
    syncResp := .ok { status := 200, text := "" } }

/-- Environment for the C10 witness run: the login POST answers 401
(rejected credentials) and the step-2 body "nope" holds no token. -/
def envW10 : SyncEnv :=
  { loginResp := .ok { status := 401, text := "denied" }
    authResp := .ok { status := 401, text := "nope" }
    syncResp := .ok { status := 200, text := "" } }

lemma flatMap_count_eq_zero {α β : Type} [BEq β] (f : α → List β) (b : β) :
    ∀ l : List α, (∀ x ∈ l, (f x).count b = 0) → (l.flatMap f).count b = 0 := by
  intro l
  induction l with
  | nil => intro _; simp
  | cons x xs ih =>
    intro h
    simp only [List.flatMap_cons, List.count_append]
    rw [h x (by simp), ih (fun y hy => h y (by simp [hy]))]

lemma flatMap_count_single {α β : Type} [BEq β]
    (f : α → List β) (b : β) (a : α) (hz : ∀ x, x ≠ a → (f x).count b = 0) :
    ∀ l : List α, l.Nodup → a ∈ l → (l.flatMap f).count b = (f a).count b := by
  intro l
  induction l with
  | nil => intro _ h; cases h
  | cons x xs ih =>
    intro hnd hmem
    simp only [List.flatMap_cons, List.count_append]
    rcases List.mem_cons.mp hmem with h | h
    · subst h
      have hnotin : a ∉ xs := (List.nodup_cons.mp hnd).1
      rw [flatMap_count_eq_zero f b xs
        (fun y hy => hz y (fun he => hnotin (he ▸ hy))), Nat.add_zero]
    · have hxa : x ≠ a := by
        intro he
        exact (List.nodup_cons.mp hnd).1 (he ▸ h)
      rw [hz x hxa, ih (List.nodup_cons.mp hnd).2 h, Nat.zero_add]

lemma userGrantEntries_snd (opv : String) (sens : Bool) (x : String) :
    ∀ e ∈ userGrantEntries opv sens x, e.2 = x := by
  intro e he
  unfold userGrantEntries at he
  split at he
  · simp at he; rw [he]
  · split at he
    · split at he
      · rcases (by simpa using he :
          e = (PermKey.viewUser, x) ∨ e = (PermKey.editUser, x)) with h | h <;> rw [h]
      · simp at he; rw [he]
    · simp at he

lemma groupGrantEntries_snd (opv : String) (sens : Bool) (x : String) :
    ∀ e ∈ groupGrantEntries opv sens x, e.2 = x := by
  intro e he
  unfold groupGrantEntries at he
  split at he
  · simp at he; rw [he]
  · split at he
    · split at he
      · rcases (by simpa using he :
          e = (PermKey.viewGroup, x) ∨ e = (PermKey.editGroup, x)) with h | h <;> rw [h]
      · simp at he; rw [he]
    · simp at he

lemma userGrantEntries_fst (opv : String) (sens : Bool) (x : String) :
    ∀ e ∈ userGrantEntries opv sens x,
      e.1 = PermKey.viewUser ∨ e.1 = PermKey.editUser := by
  intro e he
  unfold userGrantEntries at he
  split at he
  · simp at he; rw [he]; left; rfl
  · split at he
    · split at he
      · rcases (by simpa using he :
          e = (PermKey.viewUser, x) ∨ e = (PermKey.editUser, x)) with h | h <;>
          rw [h] <;> simp
      · simp at he; rw [he]; right; rfl
    · simp at he

lemma groupGrantEntries_fst (opv : String) (sens : Bool) (x : String) :
    ∀ e ∈ groupGrantEntries opv sens x,
      e.1 = PermKey.viewGroup ∨ e.1 = PermKey.editGroup := by
  intro e he
  unfold groupGrantEntries at he
  split at he
  · simp at he; rw [he]; left; rfl
  · split at he
    · split at he
      · rcases (by simpa using he :
          e = (PermKey.viewGroup, x) ∨ e = (PermKey.editGroup, x)) with h | h <;>
          rw [h] <;> simp
      · simp at he; rw [he]; right; rfl
    · simp at he

lemma count_zero_user_other (opv : String) (sens : Bool) (k : PermKey) (u x : String)
    (hx : x ≠ u) : (userGrantEntries opv sens x).count (k, u) = 0 := by
  rw [List.count_eq_zero]
  intro hm
  have h := userGrantEntries_snd opv sens x _ hm
  simp at h
  exact hx h.symm

lemma count_zero_group_other (opv : String) (sens : Bool) (k : PermKey) (g x : String)
    (hx : x ≠ g) : (groupGrantEntries opv sens x).count (k, g) = 0 := by
  rw [List.count_eq_zero]
  intro hm
  have h := groupGrantEntries_snd opv sens x _ hm
  simp at h
  exact hx h.symm

lemma count_userKey_in_groupPart (opv : String) (sens : Bool) (groups : List String)
    (k : PermKey) (u : String) (hk : k = PermKey.viewUser ∨ k = PermKey.editUser) :
    (groups.flatMap (groupGrantEntries opv sens)).count (k, u) = 0 := by
  apply flatMap_count_eq_zero
  intro g _
  rw [List.count_eq_zero]
  intro hm
  have h := groupGrantEntries_fst opv sens g _ hm
  simp only at h
  rcases hk with h1 | h1 <;> rcases h with h2 | h2 <;> rw [h1] at h2 <;> cases h2

lemma count_groupKey_in_userPart (opv : String) (sens : Bool) (users : List String)
    (k : PermKey) (g : String) (hk : k = PermKey.viewGroup ∨ k = PermKey.editGroup) :
    (users.flatMap (userGrantEntries opv sens)).count (k, g) = 0 := by
  apply flatMap_count_eq_zero
  intro u _
  rw [List.count_eq_zero]
  intro hm
  have h := userGrantEntries_fst opv sens u _ hm
  simp only at h
  rcases hk with h1 | h1 <;> rcases h with h2 | h2 <;> rw [h1] at h2 <;> cases h2

lemma grantCount_user (operation : OperationType) (T : String)
    (users groups : List String) (hu : users.Nodup) (u : String) (hm : u ∈ users)
    (k : PermKey) (hk : k = PermKey.viewUser ∨ k = PermKey.editUser) :
    grantCount operation T users groups k u
      = (userGrantEntries operation.value (is_private_or_shared T) u).count (k, u) := by
  unfold grantCount grantEntries
  rw [List.count_append, count_userKey_in_groupPart _ _ _ _ _ hk, Nat.add_zero]
  exact flatMap_count_single _ _ u (fun x hx => count_zero_user_other _ _ _ _ _ hx)
    users hu hm

lemma grantCount_group (operation : OperationType) (T : String)
    (users groups : List String) (hg : groups.Nodup) (g : String) (hm : g ∈ groups)
    (k : PermKey) (hk : k = PermKey.viewGroup ∨ k = PermKey.editGroup) :
    grantCount operation T users groups k g
      = (groupGrantEntries operation.value (is_private_or_shared T) g).count (k, g) := by
  unfold grantCount grantEntries
  rw [List.count_append, count_groupKey_in_userPart _ _ _ _ _ hk, Nat.zero_add]
  exact flatMap_count_single _ _ g (fun x hx => count_zero_group_other _ _ _ _ _ hx)
    groups hg hm

/-- C1: for every `add_restrictions` submission built over resolved page
title `T` and a (duplicate-free, non-empty) merged principal set, a read
restriction grants every user and group exactly one view grant and no edit
grant; an update restriction on a sensitive title (one containing "Private"
or "Shared") grants each exactly one view and one edit grant; an update
restriction on a non-sensitive title grants each exactly one edit grant and
no view grant. -/
theorem add_restrictions_grant_policy (operation : OperationType) (T : String)
    (users groups : List String) (hu : users.Nodup) (hg : groups.Nodup)
    (hne : users ≠ [] ∨ groups ≠ []) :
    (operation = .read →
      (∀ u ∈ users, grantCount operation T users groups .viewUser u = 1
        ∧ grantCount operation T users groups .editUser u = 0)
      ∧ (∀ g ∈ groups, grantCount operation T users groups .viewGroup g = 1
        ∧ grantCount operation T users groups .editGroup g = 0))
    ∧ (operation = .update → is_private_or_shared T = true →
      (∀ u ∈ users, grantCount operation T users groups .viewUser u = 1
        ∧ grantCount operation T users groups .editUser u = 1)
      ∧ (∀ g ∈ groups, grantCount operation T users groups .viewGroup g = 1
        ∧ grantCount operation T users groups .editGroup g = 1))
    ∧ (operation = .update → is_private_or_shared T = false →
      (∀ u ∈ users, grantCount operation T users groups .viewUser u = 0
        ∧ grantCount operation T users groups .editUser u = 1)
      ∧ (∀ g ∈ groups, grantCount operation T users groups .viewGroup g = 0
        ∧ grantCount operation T users groups .editGroup g = 1)) := by
  refine ⟨?_, ?_, ?_⟩
  · intro hop
    subst hop
    constructor
    · intro u hmu
      rw [grantCount_user _ T users groups hu u hmu _ (Or.inl rfl),
        grantCount_user _ T users groups hu u hmu _ (Or.inr rfl)]
      simp [userGrantEntries, OperationType.value]
    · intro g hmg
      rw [grantCount_group _ T users groups hg g hmg _ (Or.inl rfl),
        grantCount_group _ T users groups hg g hmg _ (Or.inr rfl)]
      simp [groupGrantEntries, OperationType.value]
  · intro hop hsens
    subst hop
    constructor
    · intro u hmu
      rw [grantCount_user _ T users groups hu u hmu _ (Or.inl rfl),
        grantCount_user _ T users groups hu u hmu _ (Or.inr rfl)]
      simp [userGrantEntries, OperationType.value, hsens]
    · intro g hmg
      rw [grantCount_group _ T users groups hg g hmg _ (Or.inl rfl),
        grantCount_group _ T users groups hg g hmg _ (Or.inr rfl)]
      simp [groupGrantEntries, OperationType.value, hsens]
  · intro hop hsens
    subst hop
    constructor
    · intro u hmu
      rw [grantCount_user _ T users groups hu u hmu _ (Or.inl rfl),
        grantCount_user _ T users groups hu u hmu _ (Or.inr rfl)]
      simp [userGrantEntries, OperationType.value, hsens]
    · intro g hmg
      rw [grantCount_group _ T users groups hg g hmg _ (Or.inl rfl),
        grantCount_group _ T users groups hg g hmg _ (Or.inr rfl)]
      simp [groupGrantEntries, OperationType.value, hsens]

/-- Witness for C1 at concrete inputs: the spec's own classification
examples. -/
theorem add_restrictions_grant_policy_witness :
    (["u1"] : List String).Nodup
    ∧ grantCount .read "Team Notes" ["u1"] ["g1"] .viewUser "u1" = 1
    ∧ grantCount .update "Private Roadmap" ["u1"] [] .editUser "u1" = 1
    ∧ grantCount .update "Team Notes" ["u1"] [] .viewUser "u1" = 0 := by
  refine ⟨by decide, ?_, ?_, ?_⟩
  · exact (((add_restrictions_grant_policy .read "Team Notes" ["u1"] ["g1"]
      (by decide) (by decide) (Or.inl (by decide))).1 rfl).1 "u1" (by decide)).1
  · exact (((add_restrictions_grant_policy .update "Private Roadmap" ["u1"] []
      (by decide) (by decide) (Or.inl (by decide))).2.1 rfl (by decide)).1 "u1"
      (by decide)).2
  · exact (((add_restrictions_grant_policy .update "Team Notes" ["u1"] []
      (by decide) (by decide) (Or.inl (by decide))).2.2 rfl (by decide)).1 "u1"
      (by decide)).1

lemma userGrantEntries_read (sens : Bool) (a : String) :
    userGrantEntries "read" sens a = [(.viewUser, a)] := rfl

lemma groupGrantEntries_read (sens : Bool) (g : String) :
    groupGrantEntries "read" sens g = [(.viewGroup, g)] := rfl

lemma userGrantEntries_update_plain (a : String) :
    userGrantEntries "update" false a = [(.editUser, a)] := rfl

lemma groupGrantEntries_update_plain (g : String) :
    groupGrantEntries "update" false g = [(.editGroup, g)] := rfl

lemma flatMap_userGrantEntries_read (sens : Bool) (users : List String) :
    users.flatMap (userGrantEntries "read" sens)
      = users.map (fun a => ((PermKey.viewUser : PermKey), a)) := by
  induction users with
  | nil => rfl
  | cons x xs ih => simp [List.flatMap_cons, ih, userGrantEntries_read]

lemma flatMap_groupGrantEntries_read (sens : Bool) (groups : List String) :
    groups.flatMap (groupGrantEntries "read" sens)
      = groups.map (fun g => ((PermKey.viewGroup : PermKey), g)) := by
  induction groups with
  | nil => rfl
  | cons x xs ih => simp [List.flatMap_cons, ih, groupGrantEntries_read]

lemma flatMap_userGrantEntries_update_plain (users : List String) :
    users.flatMap (userGrantEntries "update" false)
      = users.map (fun a => ((PermKey.editUser : PermKey), a)) := by
  induction users with
  | nil => rfl
  | cons x xs ih => simp [List.flatMap_cons, ih, userGrantEntries_update_plain]

lemma flatMap_groupGrantEntries_update_plain (groups : List String) :
    groups.flatMap (groupGrantEntries "update" false)
      = groups.map (fun g => ((PermKey.editGroup : PermKey), g)) := by
  induction groups with
  | nil => rfl
  | cons x xs ih => simp [List.flatMap_cons, ih, groupGrantEntries_update_plain]

/-- Counterexample for C2: on a sensitive-title update for two users the
code interleaves view and edit grants per principal, so the submitted body
does not list all user view grants before all user edit grants as the
claim orders them. -/
theorem form_body_order_counterexample :
    (add_restrictions envC2 inC2).2
      = some "viewPermissionsUserList=u1&editPermissionsUserList=u1&viewPermissionsUserList=u2&editPermissionsUserList=u2&contentId=p"
    ∧ specOrderedBody "update" true ["u1", "u2"] [] "p"
      = "viewPermissionsUserList=u1&viewPermissionsUserList=u2&editPermissionsUserList=u1&editPermissionsUserList=u2&contentId=p"
    ∧ (add_restrictions envC2 inC2).2 ≠ some (specOrderedBody "update" true ["u1", "u2"] [] "p")
    ∧ is_private_or_shared "Private X" = true := by
  refine ⟨by decide, by decide, by decide, by decide⟩

/-- C2 as amended: grants are emitted grouped per principal (users in
input order, then groups, then the page-id key); when each principal
receives a single grant kind — a read restriction, or an update on a
non-sensitive page — this coincides with the claimed order, and the spec's
"engineering" example submits exactly
`editPermissionsGroupList=engineering&contentId=12345` and reports one
group added. -/
theorem form_body_order_amended :
    (∀ (sens : Bool) (users groups : List String) (page_id : String),
      form_data "read" sens users groups page_id
        = users.map (fun a => renderGrant (.viewUser, a))
          ++ groups.map (fun g => renderGrant (.viewGroup, g))
          ++ [contentIdField page_id])
    ∧ (∀ (users groups : List String) (page_id : String),
      form_data "update" false users groups page_id
        = users.map (fun a => renderGrant (.editUser, a))
          ++ groups.map (fun g => renderGrant (.editGroup, g))
          ++ [contentIdField page_id])
    ∧ (∀ (users groups : List String) (page_id : String),
      form_data "update" true users groups page_id
        = users.flatMap (fun a => [renderGrant (.viewUser, a), renderGrant (.editUser, a)])
          ++ groups.flatMap (fun g => [renderGrant (.viewGroup, g), renderGrant (.editGroup, g)])
          ++ [contentIdField page_id])
    ∧ add_restrictions envEng inEng
        = (.done "12345" "update" 0 1 [] "Added update restrictions: 0 users, 1 groups",
           some "editPermissionsGroupList=engineering&contentId=12345")
    ∧ (add_restrictions envEng inEng).1.success = true := by
  refine ⟨?_, ?_, ?_, by decide, by decide⟩
  · intro sens users groups page_id
    simp [form_data, grantEntries, flatMap_userGrantEntries_read,
      flatMap_groupGrantEntries_read, List.map_map, Function.comp_def]
  · intro users groups page_id
    simp [form_data, grantEntries, flatMap_userGrantEntries_update_plain,
      flatMap_groupGrantEntries_update_plain, List.map_map, Function.comp_def]
  · intro users groups page_id
    simp [form_data, grantEntries, userGrantEntries, groupGrantEntries,
      List.map_flatMap]

/-- C3: when the step-2 response body matches neither token pattern, the
sync call fails with the token-not-found message and the step-4 sync
request is never issued. -/
theorem sync_no_token_terminal (cfg : SyncConfig) (env : SyncEnv) (p : SyncInput)
    (r1 r2 : HttpResponse)
    (hl : pyOrD p.login cfg.confluenceLogin ≠ "")
    (hp : pyOrD p.password cfg.confluencePassword ≠ "")
    (hd : pyOrD p.directory_id cfg.confluenceDirectoryId ≠ "")
    (h1 : env.loginResp = .ok r1) (h2 : env.authResp = .ok r2)
    (h3 : extract_atl_token r2.text = none) :
    sync_user_directory cfg env p = (.err tokenNotFoundMsg, false) := by
  have hor : ¬(pyOrD p.login cfg.confluenceLogin = ""
      ∨ pyOrD p.password cfg.confluencePassword = "") := by
    rintro (h | h)
    · exact hl h
    · exact hp h
  simp [sync_user_directory, hor, hd, h1, h2, afterAuth, h3]

/-- Witness for C3: the body "hello" matches neither pattern and the call
fails without issuing the sync request. -/
theorem sync_no_token_terminal_witness :
    extract_atl_token "hello" = none
    ∧ sync_user_directory cfgW envW3 pW = (.err tokenNotFoundMsg, false) := by
  constructor
  · decide
  · exact sync_no_token_terminal cfgW envW3 pW
      { status := 200, text := "" } { status := 200, text := "hello" }
      (by decide) (by decide) (by decide) rfl rfl (by decide)

/-- Counterexample for C4: a transport failure (timeout) during the title
lookup is swallowed by `_find_page_by_title` and reported with the same
NotFound message as a missing page, so the NotFound outcome is not
distinct from transport failures. -/
theorem page_lookup_transport_reported_not_found :
    add_restrictions envC4 inC4 = (.err (pageNotFoundMsg "Doc" "SP"), none)
    ∧ pageNotFoundMsg "Doc" "SP" = "Page with title 'Doc' not found in space 'SP'"
    ∧ envC4.pageLookup = .error PyExc.timeout := by
  refine ⟨by decide, by decide, rfl⟩

/-- C4 as amended: a lookup with no matching page yields the descriptive
NotFound message and no write (and, being a total function, never raises);
but a transport failure during the lookup is swallowed to the same
NotFound outcome rather than being reported separately. -/
theorem page_lookup_not_found_amended (env : AddEnv) (p : AddRestrictionInput)
    (t sk : String)
    (hc : env.hasConfig = true) (hid : p.page_id = none) (ht : p.page_title = some t)
    (hsk : p.space_key = some sk) :
    (∀ st : Nat, env.pageLookup = .ok { status := st, resultIds := [] } →
      is2xx st = true → add_restrictions env p = (.err (pageNotFoundMsg t sk), none))
    ∧ (∀ e : PyExc, env.pageLookup = .error e →
      add_restrictions env p = (.err (pageNotFoundMsg t sk), none)) := by
  constructor
  · intro st hres hst
    simp [add_restrictions, hc, hid, ht, hsk, resolvePageRef, find_page_by_title,
      hres, hst]
  · intro e hres
    simp [add_restrictions, hc, hid, ht, hsk, resolvePageRef, find_page_by_title, hres]

/-- Witness for C4's amended statement: the no-match case and the
transport-failure case, both ending in the same NotFound outcome. -/
theorem page_lookup_not_found_amended_witness :
    add_restrictions envC4b inC4 = (.err (pageNotFoundMsg "Doc" "SP"), none)
    ∧ add_restrictions envC4 inC4 = (.err (pageNotFoundMsg "Doc" "SP"), none) := by
  constructor
  · exact (page_lookup_not_found_amended envC4b inC4 "Doc" "SP" rfl rfl rfl rfl).1
      200 rfl (by decide)
  · exact (page_lookup_not_found_amended envC4 inC4 "Doc" "SP" rfl rfl rfl rfl).2
      PyExc.timeout rfl

/-- C5: when the merged user and group collections are both empty after
resolution, `add_restrictions` fails with the principals-required error
and issues no write to the legacy permissions endpoint. -/
theorem add_restrictions_empty_principals (env : AddEnv) (p : AddRestrictionInput)
    (pid ptitle : String)
    (hc : env.hasConfig = true)
    (hb : (p.page_id.isSome && p.page_title.isSome) = false)
    (hn : (p.page_id.isNone && p.page_title.isNone) = false)
    (hres : resolvePageRef env.pageLookup env.contentGet p.page_id p.page_title
      p.space_key = .ok (pid, ptitle))
    (hu : resolveUsers (fun idf => find_user_by_identifier (env.userLookup idf))
      (p.user_account_ids.getD []) (p.user_identifiers.getD []) = .ok [])
    (hg : resolveGroups (p.group_ids.getD []) (p.group_names.getD []) = .ok []) :
    add_restrictions env p = (.err noPrincipalsMsg, none) := by
  simp [add_restrictions, hc, hb, hn, hres, hu, hg]

/-- Witness for C5: a call with a page id and no principal input of any
form. -/
theorem add_restrictions_empty_principals_witness :
    resolveUsers (fun idf => find_user_by_identifier (envW5.userLookup idf)) [] []
      = .ok []
    ∧ add_restrictions envW5 inW5 = (.err noPrincipalsMsg, none) := by
  constructor
  · rfl
  · exact add_restrictions_empty_principals envW5 inW5 "1" "T" rfl rfl rfl rfl rfl rfl

lemma removeLoop_eq (delete : String → Except PyExc HttpResponse) :
    ∀ ops : List String,
      removeLoop delete ops
        = (ops.filter (fun op => (removeOneOp op (delete op)).1),
           ops.flatMap (fun op => (removeOneOp op (delete op)).2)) := by
  intro ops
  induction ops with
  | nil => rfl
  | cons x xs ih =>
    unfold removeLoop
    rw [ih]
    by_cases h : (removeOneOp x (delete x)).1 = true <;>
      simp [h, List.filter_cons, List.flatMap_cons]

lemma not_isEmpty_iff (l : List String) : (!l.isEmpty) = true ↔ l ≠ [] := by
  cases l <;> simp

/-- C6: a delete response with status 204 or 404 counts the targeted
operation as removed, so removing a restriction that does not exist still
succeeds. -/
theorem remove_restrictions_idempotent_status (env : RemoveEnv)
    (p : RemoveRestrictionInput) (pid ptitle op : String) (r : HttpResponse)
    (hc : env.hasConfig = true)
    (hb : (p.page_id.isSome && p.page_title.isSome) = false)
    (hn : (p.page_id.isNone && p.page_title.isNone) = false)
    (hres : resolvePageRef env.pageLookup env.contentGet p.page_id p.page_title
      p.space_key = .ok (pid, ptitle))
    (hop : op ∈ operations_to_remove p)
    (hr : env.deleteResp op = .ok r)
    (hst : r.status = 204 ∨ r.status = 404) :
    op ∈ ((remove_restrictions env p).1).removedOps
    ∧ ((remove_restrictions env p).1).success = true := by
  have hone : (removeOneOp op (env.deleteResp op)).1 = true := by
    rw [hr]
    rcases hst with h | h <;> simp [removeOneOp, h]
  have hmain : remove_restrictions env p
      = (.done pid ptitle (removeLoop env.deleteResp (operations_to_remove p)).1
          (removeLoop env.deleteResp (operations_to_remove p)).2,
         operations_to_remove p) := by
    simp [remove_restrictions, hc, hb, hn, hres]
  have hmem : op ∈ (removeLoop env.deleteResp (operations_to_remove p)).1 := by
    rw [removeLoop_eq]
    exact List.mem_filter.mpr ⟨hop, hone⟩
  rw [hmain]
  refine ⟨by simpa [RemoveResult.removedOps] using hmem, ?_⟩
  simpa [RemoveResult.success, not_isEmpty_iff] using List.ne_nil_of_mem hmem

/-- Witness for C6: a single-operation removal answered with 404 reports
that operation removed and overall success. -/
theorem remove_restrictions_idempotent_status_witness :
    envW6.deleteResp "read" = .ok { status := 404, text := "" }
    ∧ "read" ∈ ((remove_restrictions envW6 inW6).1).removedOps
    ∧ ((remove_restrictions envW6 inW6).1).success = true := by
  refine ⟨rfl, ?_⟩
  exact remove_restrictions_idempotent_status envW6 inW6 "p1" "T" "read"
    { status := 404, text := "" } rfl rfl rfl rfl (by decide) rfl (Or.inr rfl)

/-- C7: the target operation set is both operations when `remove_all` is
set or no operation is named, else the named one; a DELETE is issued for
every targeted operation regardless of earlier failures; every failure
becomes a per-operation warning; and overall success holds iff at least
one targeted operation succeeded. -/
theorem remove_restrictions_attempts_all (env : RemoveEnv)
    (p : RemoveRestrictionInput) (pid ptitle : String)
    (hc : env.hasConfig = true)
    (hb : (p.page_id.isSome && p.page_title.isSome) = false)
    (hn : (p.page_id.isNone && p.page_title.isNone) = false)
    (hres : resolvePageRef env.pageLookup env.contentGet p.page_id p.page_title
      p.space_key = .ok (pid, ptitle)) :
    (remove_restrictions env p).2 = operations_to_remove p
    ∧ ((p.remove_all = true ∨ p.operation = none) →
        operations_to_remove p = ["read", "update"])
    ∧ (∀ op : OperationType, p.remove_all = false → p.operation = some op →
        operations_to_remove p = [op.value])
    ∧ ((remove_restrictions env p).1).removedOps
        = (operations_to_remove p).filter (fun op => (removeOneOp op (env.deleteResp op)).1)
    ∧ ((remove_restrictions env p).1).warningsList
        = (operations_to_remove p).flatMap (fun op => (removeOneOp op (env.deleteResp op)).2)
    ∧ (((remove_restrictions env p).1).success = true ↔
        ∃ op ∈ operations_to_remove p, (removeOneOp op (env.deleteResp op)).1 = true) := by
  have hmain : remove_restrictions env p
      = (.done pid ptitle (removeLoop env.deleteResp (operations_to_remove p)).1
          (removeLoop env.deleteResp (operations_to_remove p)).2,
         operations_to_remove p) := by
    simp [remove_restrictions, hc, hb, hn, hres]
  refine ⟨by rw [hmain], ?_, ?_, ?_, ?_, ?_⟩
  · rintro (h | h) <;> simp [operations_to_remove, h]
  · intro op hra hop
    simp [operations_to_remove, hra, hop]
  · rw [hmain, removeLoop_eq]
    rfl
  · rw [hmain, removeLoop_eq]
    rfl
  · rw [hmain]
    simp only [RemoveResult.success, removeLoop_eq, not_isEmpty_iff]
    rw [Ne, List.filter_eq_nil_iff]
    push_neg
    simp

/-- Witness for C7: with `remove_all`, a failing read DELETE (500) and a
successful update DELETE (204), both operations are attempted, only
`update` is removed, and the call still succeeds. -/
theorem remove_restrictions_attempts_all_witness :
    (remove_restrictions envW7 inW7).2 = ["read", "update"]
    ∧ ((remove_restrictions envW7 inW7).1).removedOps = ["update"]
    ∧ ((remove_restrictions envW7 inW7).1).warningsList.length = 1
    ∧ ((remove_restrictions envW7 inW7).1).success = true := by
  have h := remove_restrictions_attempts_all envW7 inW7 "p1" "T" rfl rfl rfl rfl
  exact ⟨h.1.trans (by decide), by decide, by decide, by decide⟩

/-- Counterexample for C9: the principal "u1", supplied both directly and
through the resolvable identifier "alice", appears twice in the merged
collection, receives its view grant twice in the submitted body, and is
counted twice in `users_added` — the merge does not have set semantics. -/
theorem principal_merge_dup_counterexample :
    resolveUsers (fun idf => find_user_by_identifier (envC9.userLookup idf))
      ["u1"] ["alice"] = .ok ["u1", "u1"]
    ∧ add_restrictions envC9 inC9
      = (.done "p" "read" 2 0 [] "Added read restrictions: 2 users, 0 groups",
         some "viewPermissionsUserList=u1&viewPermissionsUserList=u1&contentId=p")
    ∧ ¬(["u1", "u1"] : List String).Nodup := by
  refine ⟨rfl, by decide, by decide⟩

/-- C9 as amended: merging concatenates the direct-id list with the
resolved identifiers (one resolved id per identifier, in order) without
de-duplication, and the group merge is literally the concatenation of the
two input lists; a principal supplied in both forms is therefore granted
and counted once per occurrence. -/
theorem principal_merge_concat_amended :
    (∀ (lookup : String → Option String) (ids idents merged : List String),
      resolveUsers lookup ids idents = .ok merged →
      ∃ tail, merged = ids ++ tail ∧ tail.length = idents.length)
    ∧ (∀ ids names merged : List String,
      resolveGroups ids names = .ok merged → merged = ids ++ names) := by
  constructor
  · intro lookup ids idents merged h
    induction idents generalizing ids merged with
    | nil =>
      simp [resolveUsers] at h
      exact ⟨[], by simp [h], rfl⟩
    | cons idf rest ih =>
      cases hl : lookup idf with
      | none => simp [resolveUsers, hl] at h
      | some a =>
        simp only [resolveUsers, hl] at h
        by_cases ha : a = ""
        · rw [if_pos ha] at h
          simp at h
        · rw [if_neg ha] at h
          obtain ⟨tail, ht, hlen⟩ := ih (ids ++ [a]) merged h
          exact ⟨a :: tail, by simp [ht], by simp [hlen]⟩
  · intro ids names merged h
    induction names generalizing ids merged with
    | nil =>
      simp [resolveGroups] at h
      simp [h.symm]
    | cons g rest ih =>
      simp only [resolveGroups, find_group_by_name] at h
      by_cases hg : g = ""
      · rw [if_pos hg] at h
        simp at h
      · rw [if_neg hg] at h
        have := ih (ids ++ [g]) merged h
        simp [this]

/-- Witness for C9's amended statement at concrete inputs. -/
theorem principal_merge_concat_amended_witness :
    resolveUsers (fun _ => some "x") ["a"] ["i"] = .ok ["a", "x"]
    ∧ (∃ tail, ["a", "x"] = ["a"] ++ tail ∧ tail.length = (["i"] : List String).length)
    ∧ (["g1", "g2"] : List String) = ["g1"] ++ ["g2"] := by
  refine ⟨rfl, ?_, ?_⟩
  · exact principal_merge_concat_amended.1 (fun _ => some "x") ["a"] ["i"] ["a", "x"] rfl
  · exact principal_merge_concat_amended.2 ["g1"] ["g2"] ["g1", "g2"] rfl

/-- C10: steps 1 and 2 of the sync protocol never inspect the response
status: whenever both POSTs return (any status, e.g. rejected
credentials), the call proceeds to step-3 token extraction; only a raised
transport exception terminates at step 1 or step 2, with the respective
step message. -/
theorem sync_steps12_ignore_status (cfg : SyncConfig) (p : SyncInput)
    (hl : pyOrD p.login cfg.confluenceLogin ≠ "")
    (hp : pyOrD p.password cfg.confluencePassword ≠ "")
    (hd : pyOrD p.directory_id cfg.confluenceDirectoryId ≠ "") :
    (∀ (env : SyncEnv) (r1 r2 : HttpResponse),
      env.loginResp = .ok r1 → env.authResp = .ok r2 →
      sync_user_directory cfg env p
        = afterAuth (pyOrD p.directory_id cfg.confluenceDirectoryId) env.syncResp r2.text)
    ∧ (∀ (env : SyncEnv) (e : PyExc), env.loginResp = .error e →
      sync_user_directory cfg env p = (.err ("Login failed: " ++ pyStr e), false))
    ∧ (∀ (env : SyncEnv) (r1 : HttpResponse) (e : PyExc),
      env.loginResp = .ok r1 → env.authResp = .error e →
      sync_user_directory cfg env p
        = (.err ("Authentication to user directories failed: " ++ pyStr e), false)) := by
  have hor : ¬(pyOrD p.login cfg.confluenceLogin = ""
      ∨ pyOrD p.password cfg.confluencePassword = "") := by
    rintro (h | h)
    · exact hl h
    · exact hp h
  refine ⟨?_, ?_, ?_⟩
  · intro env r1 r2 h1 h2
    simp [sync_user_directory, hor, hd, h1, h2]
  · intro env e h1
    simp [sync_user_directory, hor, hd, h1]
  · intro env r1 e h1 h2
    simp [sync_user_directory, hor, hd, h1, h2]

/-- Witness for C10: a 401-rejected login does not terminate the call; the
failure surfaces only as the later token-not-found error. -/
theorem sync_steps12_ignore_status_witness :
    envW10.loginResp = .ok { status := 401, text := "denied" }
    ∧ sync_user_directory cfgW envW10 pW = (.err tokenNotFoundMsg, false) := by
  refine ⟨rfl, ?_⟩
  have h := (sync_steps12_ignore_status cfgW pW (by decide) (by decide) (by decide)).1
    envW10 { status := 401, text := "denied" } { status := 401, text := "nope" } rfl rfl
  exact h.trans (by decide)

lemma addResult_reports (r : AddResult) :
    reportsFailureOk r.success r.jsonKeys = true := by
  cases r with
  | err e => rfl
  | done pid opv u g w m =>
    cases w <;> simp [reportsFailureOk, AddResult.success, AddResult.jsonKeys]

lemma removeResult_reports (r : RemoveResult) :
    reportsFailureOk r.success r.jsonKeys = true := by
  cases r with
  | err e => rfl
  | done pid ptitle removed w =>
    cases w <;> simp [reportsFailureOk, RemoveResult.success, RemoveResult.jsonKeys]

lemma syncResult_reports (r : SyncResult) :
    reportsFailureOk r.success r.jsonKeys = true := by
  cases r <;> rfl

lemma createResult_reports (r : CreateResult) :
    reportsFailureOk r.success r.jsonKeys = true := by
  cases r <;> rfl

lemma getRestrictionsResult_reports (r : GetRestrictionsResult) :
    reportsFailureOk r.success r.jsonKeys = true := by
  cases r <;> rfl

lemma spacePagesResult_reports (r : SpacePagesResult) :
    reportsFailureOk r.success r.jsonKeys = true := by
  cases r with
  | err e => rfl
  | ok sk tc rc st li pg hm =>
    cases hm <;> simp [reportsFailureOk, SpacePagesResult.success, SpacePagesResult.jsonKeys]

lemma childPagesResult_reports (r : ChildPagesResult) :
    reportsFailureOk r.success r.jsonKeys = true := by
  cases r with
  | err e => rfl
  | ok pid pt tc rc st li pg hm =>
    cases hm <;> simp [reportsFailureOk, ChildPagesResult.success, ChildPagesResult.jsonKeys]

/-- C8: every public tool, on every input and every environment (so in
particular on every internal failure), returns a structured outcome whose
JSON object carries a `success` key and, whenever `success` is false, an
`error` or `message` key; as total functions of the modelled environments,
the tools propagate no exception. -/
theorem tools_structured_outcomes :
    (∀ (env : AddEnv) (p : AddRestrictionInput),
      reportsFailureOk ((add_restrictions env p).1).success
        ((add_restrictions env p).1).jsonKeys = true)
    ∧ (∀ (env : RemoveEnv) (p : RemoveRestrictionInput),
      reportsFailureOk ((remove_restrictions env p).1).success
        ((remove_restrictions env p).1).jsonKeys = true)
    ∧ (∀ (env : GetRestrEnv) (page_id : String),
      reportsFailureOk (get_restrictions env page_id).success
        (get_restrictions env page_id).jsonKeys = true)
    ∧ (∀ (cfg : SyncConfig) (env : SyncEnv) (p : SyncInput),
      reportsFailureOk ((sync_user_directory cfg env p).1).success
        ((sync_user_directory cfg env p).1).jsonKeys = true)
    ∧ (∀ (env : CreateEnv) (p : CreatePageInput),
      reportsFailureOk (create_page env p).success (create_page env p).jsonKeys = true)
    ∧ (∀ (env : SpacePagesEnv) (p : GetSpacePagesInput),
      reportsFailureOk (get_space_pages env p).success
        (get_space_pages env p).jsonKeys = true)
    ∧ (∀ (env : ChildPagesEnv) (p : GetChildPagesInput),
      reportsFailureOk (get_child_pages env p).success
        (get_child_pages env p).jsonKeys = true) :=
  ⟨fun _ _ => addResult_reports _,
   fun _ _ => removeResult_reports _,
   fun _ _ => getRestrictionsResult_reports _,
   fun _ _ _ => syncResult_reports _,
   fun _ _ => createResult_reports _,
   fun _ _ => spacePagesResult_reports _,
   fun _ _ => childPagesResult_reports _⟩

end ConfluenceMCP
